import Mathlib

/- Verification of the Alter Life RPG progression engine (src/main.py).

   The engine operates on a single player-state record.  Dates are modelled
   as calendar triples; Python ISO-string comparison of valid dates agrees
   with structural equality of these triples.  Machine integers are modelled
   as Nat (the data model declares every numeric field non-negative). -/

namespace LifeRPG

/-- A calendar date (the `YYYY-MM-DD` strings of the source). -/
structure Date where
  year : Nat
  month : Nat
  day : Nat
  deriving DecidableEq, Repr

/-- The five fixed character stats: the `stats` dictionary of the source,
    whose key set is always exactly the five fixed keys. -/
structure Stats where
  strength : Nat
  intelligence : Nat
  charisma : Nat
  vitality : Nat
  discipline : Nat
  deriving DecidableEq, Repr

/-- The five fixed stat keys, in the order they appear in the source. -/
def statKeys : List String :=
  ["strength", "intelligence", "charisma", "vitality", "discipline"]

/-- Dictionary update `stats[key] += amount` guarded by
    `if stat in self.player["stats"]` (LifeRPG.add_stat): an unknown key
    leaves the dictionary unchanged. -/
def addStatKey (st : Stats) (key : String) (amount : Nat) : Stats :=
  if key = ("strength") then { st with strength := st.strength + amount }
  else if key = ("intelligence") then { st with intelligence := st.intelligence + amount }
  else if key = ("charisma") then { st with charisma := st.charisma + amount }
  else if key = ("vitality") then { st with vitality := st.vitality + amount }
  else if key = ("discipline") then { st with discipline := st.discipline + amount }
  else st

/-- Dictionary lookup `stats[key]` (0 for a key outside the fixed five,
    used only to state properties about the five real keys). -/
def statValue (st : Stats) (key : String) : Nat :=
  if key = ("strength") then st.strength
  else if key = ("intelligence") then st.intelligence
  else if key = ("charisma") then st.charisma
  else if key = ("vitality") then st.vitality
  else if key = ("discipline") then st.discipline
  else 0

/-- The `for stat in self.player["stats"]: stats[stat] += 1` loop of
    LifeRPG.level_up: adds `n` to every one of the five stats. -/
def addAllStats (st : Stats) (n : Nat) : Stats :=
  { strength := st.strength + n
    intelligence := st.intelligence + n
    charisma := st.charisma + n
    vitality := st.vitality + n
    discipline := st.discipline + n }

/-- A habit record (class Habit of the source). -/
structure Habit where
  name : String
  stat : String
  xp_reward : Nat
  difficulty : String
  streak : Nat
  total_completions : Nat
  last_completed : Option Date
  created_date : Date
  deriving DecidableEq, Repr

/-- A quest record (class Quest of the source). -/
structure Quest where
  name : String
  description : String
  xp_reward : Nat
  gold_reward : Nat
  stat_reward : Option String
  difficulty : String
  completed : Bool
  created_date : Date
  deriving DecidableEq, Repr

/-- The player state (the `player` dictionary of the source). -/
structure PlayerState where
  name : String
  level : Nat
  xp : Nat
  total_xp : Nat
  stats : Stats
  habits : List Habit
  quests : List Quest
  achievements : List String
  gold : Nat
  last_login : Date
  deriving DecidableEq, Repr

/-- LifeRPG.create_new_player. -/
def create_new_player (today : Date) : PlayerState :=
  { name := ("Adventurer")
    level := 1
    xp := 0
    total_xp := 0
    stats := { strength := 5, intelligence := 5, charisma := 5, vitality := 5, discipline := 5 }
    habits := []
    quests := []
    achievements := []
    gold := 0
    last_login := today }

/-- Fueled Heron iteration for the integer square root; a computable mirror
    of the well-founded `Nat.sqrt.iter` (see `sqrtIter_eq` below). -/
def sqrtIter : Nat → Nat → Nat → Nat
  | 0, _, guess => guess
  | fuel + 1, n, guess =>
    let next := (guess + n / guess) / 2
    if next < guess then sqrtIter fuel n next else guess

/-- Integer square root; provably equal to `Nat.sqrt`
    (theorem `isqrt_eq_sqrt` below). -/
def isqrt (n : Nat) : Nat := if n ≤ 1 then n else sqrtIter n n (n / 2)

/-- LifeRPG.get_xp_for_next_level: the source computes
    `int(100 * (level ** 1.5))`; in exact arithmetic
    `floor(100 * level ** 1.5) = floor(sqrt(10000 * level ** 3))`,
    the integer square root of `10000 * level ^ 3`. -/
def get_xp_for_next_level (level : Nat) : Nat :=
  isqrt (10000 * level ^ 3)

/-- LifeRPG.level_up: subtract the threshold of the current level from xp,
    increment the level, add `level * 10` gold at the new level, and add
    `+1` to every one of the five stats. -/
def level_up (p : PlayerState) : PlayerState :=
  let p1 := { p with xp := p.xp - get_xp_for_next_level p.level }
  let p2 := { p1 with level := p1.level + 1 }
  let p3 := { p2 with gold := p2.gold + p2.level * 10 }
  { p3 with stats := addAllStats p3.stats 1 }

/-- LifeRPG.add_xp: add the amount to `xp` and `total_xp`, then a single
    `if xp >= xp_needed: level_up()` check (the source uses `if`,
    not a loop). -/
def add_xp (p : PlayerState) (amount : Nat) : PlayerState :=
  let p1 := { p with xp := p.xp + amount, total_xp := p.total_xp + amount }
  if get_xp_for_next_level p1.level ≤ p1.xp then level_up p1 else p1

/-- LifeRPG.add_stat: `if stat in self.player["stats"]: stats[stat] += amount`
    (a silent no-op for a key outside the fixed five). -/
def add_stat (p : PlayerState) (stat : String) (amount : Nat) : PlayerState :=
  { p with stats := addStatKey p.stats stat amount }

/-- Gregorian leap-year test, for true calendar-date arithmetic. -/
def isLeapYear (y : Nat) : Bool :=
  (y % 4 = 0 && y % 100 ≠ 0) || y % 400 = 0

/-- Number of days in a month of a given year. -/
def daysInMonth (y m : Nat) : Nat :=
  if m = 2 then (if isLeapYear y then 29 else 28)
  else if m = 4 || m = 6 || m = 9 || m = 11 then 30
  else 31

/-- The true calendar day before `d` (correct across month and year
    boundaries); this is the date arithmetic the specification mandates
    for the streak rule. -/
def calendarYesterday (d : Date) : Date :=
  if 2 ≤ d.day then { d with day := d.day - 1 }
  else if 2 ≤ d.month then
    { d with month := d.month - 1, day := daysInMonth d.year (d.month - 1) }
  else { year := d.year - 1, month := 12, day := 31 }

/-- The source computes yesterday as
    `date.today().replace(day=date.today().day - 1)`
    (LifeRPGGUI.complete_habit, line 514): `replace` raises `ValueError`
    when `day - 1 < 1`, i.e. on the first day of any month; `none` models
    that exception. -/
def replaceDayMinusOne (d : Date) : Option Date :=
  if 2 ≤ d.day then some { d with day := d.day - 1 } else none

/-- Outcomes by which an engine operation can stop early: the informational
    same-day return, the `ValueError` escaping from `date.replace`, and a
    raw `IndexError` from indexing a list out of range. -/
inductive RpgError where
  | alreadyCompletedToday
  | valueError
  | indexError
  | unknownStat
  deriving DecidableEq, Repr

instance exceptDecEq {ε α : Type} [DecidableEq ε] [DecidableEq α] :
    DecidableEq (Except ε α) := fun
  | Except.ok a, Except.ok b =>
    match decEq a b with
    | isTrue h => isTrue (by rw [h])
    | isFalse h => isFalse (fun hh => h (Except.ok.inj hh))
  | Except.ok _, Except.error _ => isFalse (fun h => Except.noConfusion h)
  | Except.error _, Except.ok _ => isFalse (fun h => Except.noConfusion h)
  | Except.error a, Except.error b =>
    match decEq a b with
    | isTrue h => isTrue (by rw [h])
    | isFalse h => isFalse (fun hh => h (Except.error.inj hh))

/-- What LifeRPGGUI.complete_habit holds when it reaches its final
    message box: the updated player state and the displayed reward values. -/
structure HabitOutcome where
  state : PlayerState
  xp_reward : Nat
  gold_reward : Nat
  streak : Nat
  deriving DecidableEq, Repr

/-- The streak rule of LifeRPGGUI.complete_habit (lines 515-518): increment
    on a match with the source-computed yesterday, else reset to 1. -/
def new_streak (habit : Habit) (yesterday : Date) : Nat :=
  if habit.last_completed = some yesterday then habit.streak + 1 else 1

/-- The habit mutation of LifeRPGGUI.complete_habit (lines 516-521). -/
def updated_habit (habit : Habit) (today : Date) (streak : Nat) : Habit :=
  { habit with
    streak := streak
    last_completed := some today
    total_completions := habit.total_completions + 1 }

/-- The reward application of LifeRPGGUI.complete_habit (lines 527-533):
    xp through add_xp, `+1` to the habit's stat, the gold reward, then the
    habit written back at its index. -/
def habit_reward_applied (p : PlayerState) (index : Nat) (habit2 : Habit)
    (xpReward goldReward : Nat) : PlayerState :=
  let p1 := add_xp p xpReward
  let p2 := add_stat p1 habit2.stat 1
  let p3 := { p2 with gold := p2.gold + goldReward }
  { p3 with habits := p3.habits.set index habit2 }

/-- The GUI's extra single level-up check after a habit or quest completion
    (lines 537-540 and 609-612). -/
def gui_levelup_check (p : PlayerState) : PlayerState :=
  if get_xp_for_next_level p.level ≤ p.xp then level_up p else p

/-- The successful tail of LifeRPGGUI.complete_habit (lines 513-540), once
    the habit, today and the source-computed yesterday are in hand: update
    the streak and the habit, compute `base + streak*5` xp and `streak*2`
    gold, apply them, then the GUI's extra level-up check. -/
def complete_habit_go (p : PlayerState) (index : Nat) (today : Date)
    (habit : Habit) (yesterday : Date) : HabitOutcome :=
  let streak := new_streak habit yesterday
  let habit2 := updated_habit habit today streak
  let xpReward := habit2.xp_reward + streak * 5
  let goldReward := streak * 2
  { state := gui_levelup_check (habit_reward_applied p index habit2 xpReward goldReward)
    xp_reward := xpReward
    gold_reward := goldReward
    streak := streak }

/-- LifeRPGGUI.complete_habit (engine part, lines 503-540): fetch the habit,
    reject a same-day repeat (before any mutation), compute yesterday with
    the source's `replace(day=day-1)`, then run the reward tail. -/
def complete_habit (p : PlayerState) (index : Nat) (today : Date) :
    Except RpgError HabitOutcome :=
  match p.habits[index]? with
  | none => Except.error RpgError.indexError
  | some habit =>
    if habit.last_completed = some today then
      Except.error RpgError.alreadyCompletedToday
    else
      match replaceDayMinusOne today with
      | none => Except.error RpgError.valueError
      | some yesterday => Except.ok (complete_habit_go p index today habit yesterday)

/-- The visible-to-storage index translation loop of
    LifeRPGGUI.complete_quest (lines 581-589): scan the quests, counting
    only incomplete ones; `i` is the running storage position.  When the
    scan falls off the end without a match, the loop leaves
    `real_index = 0` (its initial value). -/
def find_real_index_aux : List Quest → Nat → Nat → Nat
  | [], _, _ => 0
  | q :: rest, idx, i =>
    if q.completed then find_real_index_aux rest idx (i + 1)
    else if idx = 0 then i
    else find_real_index_aux rest (idx - 1) (i + 1)

/-- `real_index` as computed by LifeRPGGUI.complete_quest for a visible
    index. -/
def find_real_index (quests : List Quest) (index : Nat) : Nat :=
  find_real_index_aux quests index 0

/-- The reward application of LifeRPGGUI.complete_quest (lines 598-605):
    grant xp through add_xp, add the gold reward, the optional `+2` stat
    bonus, then write the quest back at `real_index`. -/
def quest_reward_applied (p : PlayerState) (ri : Nat) (quest2 : Quest) : PlayerState :=
  let p1 := add_xp p quest2.xp_reward
  let p2 := { p1 with gold := p1.gold + quest2.gold_reward }
  let p3 := match quest2.stat_reward with
    | some s => add_stat p2 s 2
    | none => p2
  { p3 with quests := p3.quests.set ri quest2 }

/-- The reward tail of LifeRPGGUI.complete_quest (lines 594-612): mark the
    fetched quest completed, apply its rewards, then the GUI's extra single
    level-up check.  (Fetching `quests[real_index]` raises a raw IndexError
    only when the quest list is empty.) -/
def complete_quest_go (p : PlayerState) (ri : Nat) (quest : Quest) : PlayerState :=
  gui_levelup_check (quest_reward_applied p ri { quest with completed := true })

/-- LifeRPGGUI.complete_quest dispatch: translate the visible index and run
    the reward tail on the quest at `real_index`. -/
def complete_quest (p : PlayerState) (index : Nat) : Except RpgError PlayerState :=
  let ri := find_real_index p.quests index
  match p.quests[ri]? with
  | none => Except.error RpgError.indexError
  | some quest => Except.ok (complete_quest_go p ri quest)

/-- One achievement block of LifeRPGGUI.check_achievements: when the rule
    holds and the name is not already unlocked, contribute the name. -/
def achIfNew (c : Prop) [Decidable c] (n : String) (ach : List String) : List String :=
  if c ∧ n ∉ ach then [n] else []

/-- LifeRPGGUI.check_achievements (lines 644-682): the list of newly
    unlocked achievement names, in the source's check order. -/
def check_achievements (p : PlayerState) : List String :=
  achIfNew (∃ q ∈ p.quests, q.completed = true) ("First Quest Completed") p.achievements ++
  achIfNew (5 ≤ p.level) ("Reach Level 5") p.achievements ++
  achIfNew (10 ≤ p.level) ("Reach Level 10") p.achievements ++
  achIfNew (∃ h ∈ p.habits, 7 ≤ h.streak) ("7 Day Streak") p.achievements ++
  achIfNew (100 ≤ p.gold) ("Accumulate 100 Gold") p.achievements

/-- The state after LifeRPGGUI.check_achievements has extended the
    achievement list with its newly unlocked names (line 679). -/
def run_check_achievements (p : PlayerState) : PlayerState :=
  { p with achievements := p.achievements ++ check_achievements p }

/-- LifeRPGGUI.add_habit (line 491): append the new habit. -/
def add_habit (p : PlayerState) (h : Habit) : PlayerState :=
  { p with habits := p.habits ++ [h] }

/-- LifeRPGGUI.delete_habit (line 556): remove the habit at the index. -/
def delete_habit (p : PlayerState) (index : Nat) : PlayerState :=
  { p with habits := p.habits.eraseIdx index }

/-- LifeRPGGUI.add_quest (line 567): append the new quest. -/
def add_quest (p : PlayerState) (q : Quest) : PlayerState :=
  { p with quests := p.quests ++ [q] }

/-- LifeRPGGUI.delete_quest (lines 628-640): the same visible-index
    translation as completion, then removal. -/
def delete_quest (p : PlayerState) (index : Nat) : PlayerState :=
  { p with quests := p.quests.eraseIdx (find_real_index p.quests index) }

/-- The state a caller holds after a habit completion attempt: the new
    state on success, the unchanged one on an early return. -/
def habitResultState (p : PlayerState) : Except RpgError HabitOutcome → PlayerState
  | Except.ok r => r.state
  | Except.error _ => p

/-- The state a caller holds after a quest completion attempt. -/
def questResultState (p : PlayerState) : Except RpgError PlayerState → PlayerState
  | Except.ok s => s
  | Except.error _ => p

/-- Whether an engine operation ran to completion rather than stopping on
    an error. -/
def isOkResult {α : Type} : Except RpgError α → Bool
  | Except.ok _ => true
  | Except.error _ => false

/-- addStat as the specification words it (spec section 4.4): fails with
    `UnknownStat` if the stat kind is not one of the five fixed keys;
    stated for comparison with the source's silent-skip `add_stat`. -/
def addStatSpec (p : PlayerState) (stat : String) (amount : Nat) :
    Except RpgError PlayerState :=
  if stat ∈ statKeys then Except.ok (add_stat p stat amount)
  else Except.error RpgError.unknownStat

/-- A fixed reference date (not the first of a month, so that the source's
    `replace(day=day-1)` succeeds on it). -/
def baseDate : Date := { year := 2024, month := 1, day := 2 }

/-- A fresh player, as LifeRPG.create_new_player builds one. -/
def freshPlayer : PlayerState := create_new_player baseDate

/-- A hard-difficulty habit (base 30 xp) that trains strength, never yet
    completed. -/
def hardHabit : Habit :=
  { name := ("Exercise")
    stat := ("strength")
    xp_reward := 30
    difficulty := ("hard")
    streak := 0
    total_completions := 0
    last_completed := none
    created_date := { year := 2024, month := 1, day := 1 } }

/-- A habit last completed on 2024-01-31 with a running streak. -/
def janHabit : Habit :=
  { hardHabit with last_completed := some { year := 2024, month := 1, day := 31 }, streak := 5 }

/-- A player holding `janHabit`, about to complete it on 2024-02-01. -/
def febState : PlayerState := { freshPlayer with habits := [janHabit] }

/-- A habit already completed on `baseDate`. -/
def doneTodayHabit : Habit := { hardHabit with last_completed := some baseDate, streak := 3 }

/-- A player whose only habit was already completed today (`baseDate`). -/
def doneTodayState : PlayerState := { freshPlayer with habits := [doneTodayHabit] }

/-- A player holding the never-completed `hardHabit`. -/
def firstTimeState : PlayerState := { freshPlayer with habits := [hardHabit] }

/-- The outcome of the first-ever completion of `hardHabit` on `baseDate`
    (the source's yesterday for `baseDate` is 2024-01-01). -/
def firstOutcome : HabitOutcome :=
  complete_habit_go firstTimeState 0 baseDate hardHabit { year := 2024, month := 1, day := 1 }

/-- A quest that is already completed (normal difficulty: 50 xp, 20 gold). -/
def doneQuest : Quest :=
  { name := ("Slay the dragon")
    description := ("done already")
    xp_reward := 50
    gold_reward := 20
    stat_reward := none
    difficulty := ("normal")
    completed := true
    created_date := { year := 2024, month := 1, day := 1 } }

/-- An incomplete quest. -/
def openQuest : Quest := { doneQuest with name := ("Find the sword"), completed := false }

/-- A player whose quest list holds one completed quest followed by one
    incomplete quest: exactly one incomplete quest is visible. -/
def twoQuestState : PlayerState := { freshPlayer with quests := [doneQuest, openQuest] }

end LifeRPG

namespace LifeRPG

theorem sqrtIter_eq (fuel : Nat) : ∀ n guess : Nat, guess < fuel →
    sqrtIter fuel n guess = Nat.sqrt.iter n guess := by
  induction fuel with
  | zero => intro n guess h; omega
  | succ f ih =>
    intro n guess h
    rw [Nat.sqrt.iter]
    simp only [sqrtIter]
    by_cases hlt : (guess + n / guess) / 2 < guess
    · simp only [hlt, if_pos, dif_pos]
      exact ih n _ (by omega)
    · simp only [hlt, if_neg, dif_neg, not_false_iff]

/-- The fueled integer square root agrees with the library square root:
    `isqrt n` is the floor of the real square root of `n`. -/
theorem isqrt_eq_sqrt (n : Nat) : isqrt n = Nat.sqrt n := by
  unfold isqrt Nat.sqrt
  by_cases h : n ≤ 1
  · simp [h]
  · simp only [h, if_neg, not_false_iff]
    exact sqrtIter_eq n n (n / 2) (by omega)

theorem xp_needed_one : get_xp_for_next_level 1 = 100 := by decide

theorem xp_needed_two : get_xp_for_next_level 2 = 282 := by decide

theorem statValue_addAllStats (st : Stats) (n : Nat) (s : String) (hs : s ∈ statKeys) :
    statValue (addAllStats st n) s = statValue st s + n := by
  simp only [statKeys, List.mem_cons, List.mem_singleton, List.not_mem_nil, or_false] at hs
  rcases hs with h | h | h | h | h <;> subst h <;> rfl

theorem statValue_addStatKey (st : Stats) (a : Nat) (s : String) (hs : s ∈ statKeys) :
    statValue (addStatKey st s a) s = statValue st s + a := by
  simp only [statKeys, List.mem_cons, List.mem_singleton, List.not_mem_nil, or_false] at hs
  rcases hs with h | h | h | h | h <;> subst h <;> rfl

theorem level_up_level (p : PlayerState) : (level_up p).level = p.level + 1 := rfl

theorem level_up_total_xp (p : PlayerState) : (level_up p).total_xp = p.total_xp := rfl

theorem level_up_gold (p : PlayerState) :
    (level_up p).gold = p.gold + (p.level + 1) * 10 := rfl

theorem level_up_statValue (p : PlayerState) (s : String) (hs : s ∈ statKeys) :
    statValue (level_up p).stats s = statValue p.stats s + 1 :=
  statValue_addAllStats _ 1 s hs

theorem add_xp_total_xp (p : PlayerState) (a : Nat) :
    (add_xp p a).total_xp = p.total_xp + a := by
  unfold add_xp; dsimp only; split <;> rfl

theorem add_xp_level_cases (p : PlayerState) (a : Nat) :
    (add_xp p a).level = p.level + 1 ∧ (add_xp p a).stats = addAllStats p.stats 1 ∨
    (add_xp p a).level = p.level ∧ (add_xp p a).stats = p.stats := by
  unfold add_xp; dsimp only; split
  · left; exact ⟨rfl, rfl⟩
  · right; exact ⟨rfl, rfl⟩

theorem add_xp_level_ge (p : PlayerState) (a : Nat) : p.level ≤ (add_xp p a).level := by
  rcases add_xp_level_cases p a with ⟨h, _⟩ | ⟨h, _⟩ <;> omega

theorem add_xp_statValue (p : PlayerState) (a : Nat) (s : String) (hs : s ∈ statKeys) :
    statValue (add_xp p a).stats s =
      statValue p.stats s + ((add_xp p a).level - p.level) := by
  rcases add_xp_level_cases p a with ⟨h1, h2⟩ | ⟨h1, h2⟩ <;> rw [h1, h2]
  · rw [statValue_addAllStats _ _ _ hs]; omega
  · omega

theorem add_xp_gold_ge (p : PlayerState) (a : Nat) : p.gold ≤ (add_xp p a).gold := by
  unfold add_xp; dsimp only; split
  · rw [level_up_gold]; exact Nat.le_add_right _ _
  · exact Nat.le_refl _

theorem add_stat_gold (p : PlayerState) (s : String) (a : Nat) :
    (add_stat p s a).gold = p.gold := rfl

theorem add_stat_total_xp (p : PlayerState) (s : String) (a : Nat) :
    (add_stat p s a).total_xp = p.total_xp := rfl

theorem add_stat_level (p : PlayerState) (s : String) (a : Nat) :
    (add_stat p s a).level = p.level := rfl

theorem updated_habit_xp_reward (h : Habit) (t : Date) (s : Nat) :
    (updated_habit h t s).xp_reward = h.xp_reward := rfl

theorem updated_habit_stat (h : Habit) (t : Date) (s : Nat) :
    (updated_habit h t s).stat = h.stat := rfl

theorem gui_levelup_check_total_xp (p : PlayerState) :
    (gui_levelup_check p).total_xp = p.total_xp := by
  unfold gui_levelup_check; split
  · exact level_up_total_xp p
  · rfl

theorem gui_levelup_check_level_ge (p : PlayerState) :
    p.level ≤ (gui_levelup_check p).level := by
  unfold gui_levelup_check; split
  · rw [level_up_level]; omega
  · exact Nat.le_refl _

theorem gui_levelup_check_gold_ge (p : PlayerState) :
    p.gold ≤ (gui_levelup_check p).gold := by
  unfold gui_levelup_check; split
  · rw [level_up_gold]; exact Nat.le_add_right _ _
  · exact Nat.le_refl _

theorem gui_levelup_check_statValue (p : PlayerState) (s : String) (hs : s ∈ statKeys) :
    statValue (gui_levelup_check p).stats s =
      statValue p.stats s + ((gui_levelup_check p).level - p.level) := by
  unfold gui_levelup_check; split
  · rw [level_up_statValue _ _ hs, level_up_level]; omega
  · omega

theorem habit_reward_applied_total_xp (p : PlayerState) (index : Nat) (h2 : Habit)
    (xr gr : Nat) :
    (habit_reward_applied p index h2 xr gr).total_xp = p.total_xp + xr := by
  unfold habit_reward_applied
  dsimp only
  rw [add_stat_total_xp, add_xp_total_xp]

theorem habit_reward_applied_level (p : PlayerState) (index : Nat) (h2 : Habit)
    (xr gr : Nat) :
    (habit_reward_applied p index h2 xr gr).level = (add_xp p xr).level := by
  unfold habit_reward_applied
  dsimp only
  rw [add_stat_level]

theorem habit_reward_applied_gold (p : PlayerState) (index : Nat) (h2 : Habit)
    (xr gr : Nat) :
    (habit_reward_applied p index h2 xr gr).gold = (add_xp p xr).gold + gr := by
  unfold habit_reward_applied
  dsimp only
  rw [add_stat_gold]

theorem habit_reward_applied_statValue (p : PlayerState) (index : Nat) (h2 : Habit)
    (xr gr : Nat) (s : String) (hstat : h2.stat = s) (hs : s ∈ statKeys) :
    statValue (habit_reward_applied p index h2 xr gr).stats s =
      statValue (add_xp p xr).stats s + 1 := by
  unfold habit_reward_applied
  dsimp only
  rw [hstat]
  exact statValue_addStatKey _ _ _ hs

theorem complete_habit_go_xp_reward (p : PlayerState) (index : Nat)
    (today y : Date) (hab : Habit) :
    (complete_habit_go p index today hab y).xp_reward =
      hab.xp_reward + (complete_habit_go p index today hab y).streak * 5 := rfl

theorem complete_habit_go_gold_reward (p : PlayerState) (index : Nat)
    (today y : Date) (hab : Habit) :
    (complete_habit_go p index today hab y).gold_reward =
      (complete_habit_go p index today hab y).streak * 2 := rfl

theorem complete_habit_go_total_xp (p : PlayerState) (index : Nat)
    (today y : Date) (hab : Habit) :
    (complete_habit_go p index today hab y).state.total_xp =
      p.total_xp + (complete_habit_go p index today hab y).xp_reward := by
  unfold complete_habit_go
  dsimp only
  rw [gui_levelup_check_total_xp, habit_reward_applied_total_xp]

theorem complete_habit_go_statValue (p : PlayerState) (index : Nat)
    (today y : Date) (hab : Habit) (hs : hab.stat ∈ statKeys) :
    statValue (complete_habit_go p index today hab y).state.stats hab.stat =
      statValue p.stats hab.stat + 1 +
        ((complete_habit_go p index today hab y).state.level - p.level) := by
  unfold complete_habit_go
  dsimp only
  rw [gui_levelup_check_statValue _ _ hs,
    habit_reward_applied_statValue _ _ _ _ _ _ (updated_habit_stat _ _ _) hs,
    add_xp_statValue _ _ _ hs, habit_reward_applied_level]
  have h1 := add_xp_level_ge p
      ((updated_habit hab today (new_streak hab y)).xp_reward + new_streak hab y * 5)
  have h2 := gui_levelup_check_level_ge
      (habit_reward_applied p index (updated_habit hab today (new_streak hab y))
        ((updated_habit hab today (new_streak hab y)).xp_reward + new_streak hab y * 5)
        (new_streak hab y * 2))
  rw [habit_reward_applied_level] at h2
  omega

theorem complete_habit_go_gold (p : PlayerState) (index : Nat)
    (today y : Date) (hab : Habit) :
    p.gold + (complete_habit_go p index today hab y).gold_reward ≤
      (complete_habit_go p index today hab y).state.gold := by
  unfold complete_habit_go
  dsimp only
  have h1 := add_xp_gold_ge p
      ((updated_habit hab today (new_streak hab y)).xp_reward + new_streak hab y * 5)
  have h2 := gui_levelup_check_gold_ge
      (habit_reward_applied p index (updated_habit hab today (new_streak hab y))
        ((updated_habit hab today (new_streak hab y)).xp_reward + new_streak hab y * 5)
        (new_streak hab y * 2))
  rw [habit_reward_applied_gold] at h2
  omega

/-- C7 -/
theorem habit_reward_formula (p : PlayerState) (index : Nat) (today : Date)
    (hab : Habit) (r : HabitOutcome)
    (hget : p.habits[index]? = some hab)
    (hok : complete_habit p index today = Except.ok r) :
    r.xp_reward = hab.xp_reward + r.streak * 5 ∧
    r.gold_reward = r.streak * 2 ∧
    r.state.total_xp = p.total_xp + r.xp_reward ∧
    (hab.stat ∈ statKeys →
      statValue r.state.stats hab.stat =
        statValue p.stats hab.stat + 1 + (r.state.level - p.level)) ∧
    p.gold + r.gold_reward ≤ r.state.gold := by
  unfold complete_habit at hok
  rw [hget] at hok
  dsimp only at hok
  by_cases h1 : hab.last_completed = some today
  · rw [if_pos h1] at hok
    exact Except.noConfusion hok
  · rw [if_neg h1] at hok
    cases hyd : replaceDayMinusOne today with
    | none => rw [hyd] at hok; exact Except.noConfusion hok
    | some y =>
      rw [hyd] at hok
      have hr : r = complete_habit_go p index today hab y := (Except.ok.inj hok).symm
      subst hr
      exact ⟨complete_habit_go_xp_reward p index today y hab,
        complete_habit_go_gold_reward p index today y hab,
        complete_habit_go_total_xp p index today y hab,
        fun hs => complete_habit_go_statValue p index today y hab hs,
        complete_habit_go_gold p index today y hab⟩

/-- C7 witness -/
theorem habit_reward_formula_wit :
    (firstOutcome.xp_reward = hardHabit.xp_reward + firstOutcome.streak * 5 ∧
     firstOutcome.gold_reward = firstOutcome.streak * 2 ∧
     firstOutcome.state.total_xp = firstTimeState.total_xp + firstOutcome.xp_reward ∧
     (hardHabit.stat ∈ statKeys →
       statValue firstOutcome.state.stats hardHabit.stat =
         statValue firstTimeState.stats hardHabit.stat + 1 +
           (firstOutcome.state.level - firstTimeState.level)) ∧
     firstTimeState.gold + firstOutcome.gold_reward ≤ firstOutcome.state.gold) ∧
    firstOutcome.streak = 1 ∧ firstOutcome.xp_reward = 35 ∧
    firstOutcome.gold_reward = 2 ∧ firstOutcome.state.xp = 35 ∧
    firstOutcome.state.gold = 2 ∧
    statValue firstOutcome.state.stats ("strength") = 6 :=
  ⟨habit_reward_formula firstTimeState 0 baseDate hardHabit firstOutcome
      (by decide) (by decide),
   by decide⟩


/-- C1: the claim says add_xp loops so that one call covering several
    consecutive thresholds yields several level-ups; in the source the
    check is a single `if`, so granting 400 xp to a fresh level-1 player
    (covering the level-1 and level-2 thresholds, 100 + 282 ≤ 400) yields
    only level 2 with 300 xp left — the loop the claim describes would
    reach level 3. -/
theorem add_xp_single_levelup_on_400 :
    get_xp_for_next_level 1 + get_xp_for_next_level 2 ≤ 400 ∧
    (add_xp freshPlayer 400).level = 2 ∧
    (add_xp freshPlayer 400).xp = 300 := by decide

/-- C5: after add_xp of 400 on a fresh player the invariant
    `experience < xpThreshold(level)` fails: the state is level 2 with
    300 xp while the level-2 threshold is 282. -/
theorem xp_invariant_fails_after_add_xp :
    ¬ ((add_xp freshPlayer 400).xp <
        get_xp_for_next_level (add_xp freshPlayer 400).level) := by decide

/-- C2: completing on 2024-02-01 a habit last completed on 2024-01-31 (the
    true calendar yesterday) does not increment the streak: the source's
    `replace(day=day-1)` raises ValueError on the first of a month, so the
    completion aborts. -/
theorem streak_month_boundary_value_error :
    janHabit.last_completed =
      some (calendarYesterday { year := 2024, month := 2, day := 1 }) ∧
    complete_habit febState 0 { year := 2024, month := 2, day := 1 } =
      Except.error RpgError.valueError := by decide

/-- C4: with one completed quest at storage index 0 and one incomplete
    quest, the visible index 1 is out of range (only one incomplete quest),
    yet complete_quest does not fail: the translation loop leaves
    `real_index = 0` and the already-completed quest at index 0 has its
    50 xp and 20 gold granted again. -/
theorem out_of_range_regrants_completed_quest :
    twoQuestState.quests[0]?.map Quest.completed = some true ∧
    find_real_index twoQuestState.quests 1 = 0 ∧
    isOkResult (complete_quest twoQuestState 1) = true ∧
    (questResultState twoQuestState (complete_quest twoQuestState 1)).gold =
      twoQuestState.gold + doneQuest.gold_reward ∧
    (questResultState twoQuestState (complete_quest twoQuestState 1)).total_xp =
      twoQuestState.total_xp + doneQuest.xp_reward := by decide

/-- C3: when the indexed habit's last completed date equals today,
    complete_habit stops with the already-completed-today outcome before
    any mutation, and the state the caller holds is unchanged. -/
theorem already_completed_today_rejected (p : PlayerState) (index : Nat)
    (today : Date) (hab : Habit)
    (hget : p.habits[index]? = some hab)
    (hlast : hab.last_completed = some today) :
    complete_habit p index today = Except.error RpgError.alreadyCompletedToday ∧
    habitResultState p (complete_habit p index today) = p := by
  have h : complete_habit p index today = Except.error RpgError.alreadyCompletedToday := by
    unfold complete_habit
    rw [hget]
    simp [hlast]
  exact ⟨h, by rw [h]; rfl⟩

/-- C3 witness: a player whose only habit was already completed on
    `baseDate` is rejected when completing it again on `baseDate`. -/
theorem already_completed_today_rejected_wit :
    complete_habit doneTodayState 0 baseDate =
      Except.error RpgError.alreadyCompletedToday ∧
    habitResultState doneTodayState (complete_habit doneTodayState 0 baseDate) =
      doneTodayState :=
  already_completed_today_rejected doneTodayState 0 baseDate doneTodayHabit
    (by decide) (by decide)

theorem mem_achIfNew {c : Prop} [Decidable c] {n m : String} {ach : List String} :
    m ∈ achIfNew c n ach ↔ m = n ∧ c ∧ n ∉ ach := by
  unfold achIfNew
  split
  · rename_i h
    simp only [List.mem_singleton]
    constructor
    · intro hm; exact ⟨hm, h⟩
    · intro hm; exact hm.1
  · rename_i h
    simp only [List.not_mem_nil, false_iff]
    intro hm
    exact h ⟨hm.2.1, hm.2.2⟩

theorem achIfNew_eq_nil {c : Prop} [Decidable c] {n : String} {ach : List String}
    (h : ¬ (c ∧ n ∉ ach)) : achIfNew c n ach = [] := by
  unfold achIfNew; rw [if_neg h]

theorem achIfNew_append_eq_nil {c : Prop} [Decidable c] {n : String}
    {A tail : List String}
    (h : ∀ m ∈ achIfNew c n A, m ∈ tail) : achIfNew c n (A ++ tail) = [] := by
  apply achIfNew_eq_nil
  rintro ⟨hc, hnot⟩
  rw [List.mem_append] at hnot
  push_neg at hnot
  exact hnot.2 (h n (mem_achIfNew.mpr ⟨rfl, hc, hnot.1⟩))

/-- C8: check_achievements returns exactly the names whose rule holds on
    the state and that are not already unlocked (one iff per rule, and
    every returned name is one of the five), and re-running it after its
    result has been merged into the achievement list yields the empty
    list. -/
theorem achievement_rules_and_idempotent (p : PlayerState) :
    (("First Quest Completed") ∈ check_achievements p ↔
      (∃ q ∈ p.quests, q.completed = true) ∧
        ("First Quest Completed") ∉ p.achievements) ∧
    (("Reach Level 5") ∈ check_achievements p ↔
      5 ≤ p.level ∧ ("Reach Level 5") ∉ p.achievements) ∧
    (("Reach Level 10") ∈ check_achievements p ↔
      10 ≤ p.level ∧ ("Reach Level 10") ∉ p.achievements) ∧
    (("7 Day Streak") ∈ check_achievements p ↔
      (∃ h ∈ p.habits, 7 ≤ h.streak) ∧ ("7 Day Streak") ∉ p.achievements) ∧
    (("Accumulate 100 Gold") ∈ check_achievements p ↔
      100 ≤ p.gold ∧ ("Accumulate 100 Gold") ∉ p.achievements) ∧
    (∀ a ∈ check_achievements p,
      a = ("First Quest Completed") ∨ a = ("Reach Level 5") ∨
        a = ("Reach Level 10") ∨ a = ("7 Day Streak") ∨
        a = ("Accumulate 100 Gold")) ∧
    check_achievements (run_check_achievements p) = [] := by
  refine ⟨?_, ?_, ?_, ?_, ?_, ?_, ?_⟩
  · simp [check_achievements, List.mem_append, mem_achIfNew]
  · simp [check_achievements, List.mem_append, mem_achIfNew]
  · simp [check_achievements, List.mem_append, mem_achIfNew]
  · simp [check_achievements, List.mem_append, mem_achIfNew]
  · simp [check_achievements, List.mem_append, mem_achIfNew]
  · intro a ha
    simp only [check_achievements, List.mem_append, mem_achIfNew] at ha
    tauto
  · have h1 : ∀ m ∈ achIfNew (∃ q ∈ p.quests, q.completed = true)
        ("First Quest Completed") p.achievements, m ∈ check_achievements p := by
      intro m hm
      simp only [check_achievements, List.mem_append]
      tauto
    have h2 : ∀ m ∈ achIfNew (5 ≤ p.level) ("Reach Level 5") p.achievements,
        m ∈ check_achievements p := by
      intro m hm
      simp only [check_achievements, List.mem_append]
      tauto
    have h3 : ∀ m ∈ achIfNew (10 ≤ p.level) ("Reach Level 10") p.achievements,
        m ∈ check_achievements p := by
      intro m hm
      simp only [check_achievements, List.mem_append]
      tauto
    have h4 : ∀ m ∈ achIfNew (∃ h ∈ p.habits, 7 ≤ h.streak)
        ("7 Day Streak") p.achievements, m ∈ check_achievements p := by
      intro m hm
      simp only [check_achievements, List.mem_append]
      tauto
    have h5 : ∀ m ∈ achIfNew (100 ≤ p.gold) ("Accumulate 100 Gold") p.achievements,
        m ∈ check_achievements p := by
      intro m hm
      simp only [check_achievements, List.mem_append]
      tauto
    show achIfNew (∃ q ∈ p.quests, q.completed = true) ("First Quest Completed")
        (p.achievements ++ check_achievements p) ++
      achIfNew (5 ≤ p.level) ("Reach Level 5")
        (p.achievements ++ check_achievements p) ++
      achIfNew (10 ≤ p.level) ("Reach Level 10")
        (p.achievements ++ check_achievements p) ++
      achIfNew (∃ h ∈ p.habits, 7 ≤ h.streak) ("7 Day Streak")
        (p.achievements ++ check_achievements p) ++
      achIfNew (100 ≤ p.gold) ("Accumulate 100 Gold")
        (p.achievements ++ check_achievements p) = []
    rw [achIfNew_append_eq_nil h1, achIfNew_append_eq_nil h2,
      achIfNew_append_eq_nil h3, achIfNew_append_eq_nil h4,
      achIfNew_append_eq_nil h5]
    rfl

/-- C9 counterexample: for the unknown stat kind "luck" the source's
    add_stat does not fail: it returns normally with the state unchanged,
    while the operation as the specification words it fails with
    UnknownStat. -/
theorem unknown_stat_no_failure :
    add_stat freshPlayer ("luck") 5 = freshPlayer ∧
    addStatSpec freshPlayer ("luck") 5 = Except.error RpgError.unknownStat := by
  decide

/-- C9 amended: for a stat kind outside the five fixed keys, add_stat is a
    silent no-op (it returns the state unchanged and signals no error);
    for the five fixed keys it adds the amount to that stat, with no upper
    bound. -/
theorem add_stat_unknown_silent (p : PlayerState) (stat : String) (amount : Nat) :
    (stat ∉ statKeys → add_stat p stat amount = p) ∧
    (stat ∈ statKeys →
      statValue (add_stat p stat amount).stats stat =
        statValue p.stats stat + amount) := by
  constructor
  · intro h
    simp only [statKeys, List.mem_cons, List.mem_singleton, List.not_mem_nil,
      or_false, not_or] at h
    obtain ⟨h1, h2, h3, h4, h5⟩ := h
    unfold add_stat addStatKey
    rw [if_neg h1, if_neg h2, if_neg h3, if_neg h4, if_neg h5]
  · intro h
    exact statValue_addStatKey _ _ _ h

/-- C9 amended witness: "luck" is silently ignored; "strength" is
    increased by the amount. -/
theorem add_stat_unknown_silent_wit :
    add_stat freshPlayer ("luck") 5 = freshPlayer ∧
    statValue (add_stat freshPlayer ("strength") 5).stats ("strength") =
      statValue freshPlayer.stats ("strength") + 5 :=
  ⟨(add_stat_unknown_silent freshPlayer ("luck") 5).1 (by decide),
   (add_stat_unknown_silent freshPlayer ("strength") 5).2 (by decide)⟩

theorem quest_reward_applied_gold (p : PlayerState) (ri : Nat) (q2 : Quest) :
    (quest_reward_applied p ri q2).gold =
      (add_xp p q2.xp_reward).gold + q2.gold_reward := by
  unfold quest_reward_applied
  dsimp only
  cases hq : q2.stat_reward with
  | none => rfl
  | some s => rw [add_stat_gold]

theorem complete_quest_go_gold_ge (p : PlayerState) (ri : Nat) (q : Quest) :
    p.gold ≤ (complete_quest_go p ri q).gold := by
  unfold complete_quest_go
  refine Nat.le_trans ?_ (gui_levelup_check_gold_ge _)
  rw [quest_reward_applied_gold]
  have := add_xp_gold_ge p ({ q with completed := true } : Quest).xp_reward
  omega

theorem complete_habit_gold_ge (p : PlayerState) (index : Nat) (today : Date) :
    p.gold ≤ (habitResultState p (complete_habit p index today)).gold := by
  unfold complete_habit
  cases hget : p.habits[index]? with
  | none => exact Nat.le_refl _
  | some hab =>
    dsimp only
    by_cases h1 : hab.last_completed = some today
    · rw [if_pos h1]
      exact Nat.le_refl _
    · rw [if_neg h1]
      cases hyd : replaceDayMinusOne today with
      | none => exact Nat.le_refl _
      | some y =>
        dsimp only [habitResultState]
        have := complete_habit_go_gold p index today y hab
        omega

theorem complete_quest_gold_ge (p : PlayerState) (index : Nat) :
    p.gold ≤ (questResultState p (complete_quest p index)).gold := by
  unfold complete_quest
  dsimp only
  cases hget : p.quests[find_real_index p.quests index]? with
  | none => exact Nat.le_refl _
  | some q =>
    dsimp only [questResultState]
    exact complete_quest_go_gold_ge p _ q

/-- C10: no engine operation decreases the gold field: experience addition,
    the level-up transition, stat addition, habit completion (successful or
    rejected), quest completion, habit and quest creation and deletion, and
    achievement checking all leave gold greater than or equal to its prior
    value. -/
theorem gold_monotone (p : PlayerState) (index qindex dindex : Nat)
    (today : Date) (stat : String) (amount : Nat) (hab : Habit) (q : Quest) :
    p.gold ≤ (add_xp p amount).gold ∧
    p.gold ≤ (level_up p).gold ∧
    p.gold ≤ (add_stat p stat amount).gold ∧
    p.gold ≤ (habitResultState p (complete_habit p index today)).gold ∧
    p.gold ≤ (questResultState p (complete_quest p qindex)).gold ∧
    p.gold ≤ (add_habit p hab).gold ∧
    p.gold ≤ (delete_habit p dindex).gold ∧
    p.gold ≤ (add_quest p q).gold ∧
    p.gold ≤ (delete_quest p dindex).gold ∧
    p.gold ≤ (run_check_achievements p).gold := by
  refine ⟨add_xp_gold_ge p amount, ?_, ?_, complete_habit_gold_ge p index today,
    complete_quest_gold_ge p qindex, Nat.le_refl _, Nat.le_refl _, Nat.le_refl _,
    Nat.le_refl _, Nat.le_refl _⟩
  · rw [level_up_gold]
    exact Nat.le_add_right _ _
  · rw [add_stat_gold]

end LifeRPG
